import Mathlib

set_option maxHeartbeats 1000000

namespace SslCrypto

/-! ### Dynamic values

Python-style structured values, as passed to the schema checker and the key
database (src/formats.py, src/tests/test_keydb.py): strings, integers,
booleans, None, lists, and string-keyed dictionaries. -/

inductive Value where
  | str : String → Value
  | int : Int → Value
  | bool : Bool → Value
  | none : Value
  | list : List Value → Value
  | dict : List (String × Value) → Value

/-- First-match lookup in a dictionary, Python `d[name]` / `name in d`. -/
def lookupVal : List (String × Value) → String → Option Value
  | [], _ => Option.none
  | (k, v) :: rest, name => if k = name then some v else lookupVal rest name

/-! ### Regular expressions

`SCHEMA.RegularExpression(pattern)` (used by `HASH_SCHEMA` and `KEYID_SCHEMA`
in src/formats.py). Modelled from the spec: the schema module itself is not
under src/; per the spec's combinator table a `RegularExpression(pattern)`
schema matches a value when it is a string and the entire string matches the
pattern (anchored full match). The matcher below is a Brzozowski-derivative
engine over the regex fragment the catalog's patterns need (character-class
ranges, sequencing, alternation, star, plus). -/

inductive Regex where
  | emp : Regex
  | void : Regex
  | cls : List (Char × Char) → Regex
  | seq : Regex → Regex → Regex
  | alt : Regex → Regex → Regex
  | star : Regex → Regex
  | plus : Regex → Regex

/-- Does character `c` fall in one of the ranges of a character class? -/
def inRanges (ranges : List (Char × Char)) (c : Char) : Bool :=
  ranges.any (fun p => p.1 ≤ c && c ≤ p.2)

def Regex.nullable : Regex → Bool
  | .emp => true
  | .void => false
  | .cls _ => false
  | .seq a b => a.nullable && b.nullable
  | .alt a b => a.nullable || b.nullable
  | .star _ => true
  | .plus r => r.nullable

def Regex.deriv : Regex → Char → Regex
  | .emp, _ => .void
  | .void, _ => .void
  | .cls ranges, c => if inRanges ranges c then .emp else .void
  | .seq a b, c =>
      if a.nullable then .alt (.seq (a.deriv c) b) (b.deriv c)
      else .seq (a.deriv c) b
  | .alt a b, c => .alt (a.deriv c) (b.deriv c)
  | .star r, c => .seq (r.deriv c) (.star r)
  | .plus r, c => .seq (r.deriv c) (.star r)

def Regex.matchChars : Regex → List Char → Bool
  | r, [] => r.nullable
  | r, c :: cs => (r.deriv c).matchChars cs

/-- Anchored full-string match. -/
def Regex.fullMatch (r : Regex) (s : String) : Bool :=
  r.matchChars s.data

/-- The pattern `[a-fA-F0-9]+` of `HASH_SCHEMA` / `KEYID_SCHEMA`
(src/formats.py lines 89-101). -/
def hexPattern : Regex :=
  Regex.plus (Regex.cls [('a', 'f'), ('A', 'F'), ('0', '9')])

/-! ### Schema combinators

Modelled from the spec: the Schema Validator module (`schema.py`, imported by
src/formats.py as `SCHEMA`) is not under src/. The constructors and their
matching semantics follow the spec's combinator table (section 4.1): `Any`,
`AnyString`, `String(literal)`, `RegularExpression(pattern)` (anchored full
match), `Integer(lo, hi)` (inclusive bounds, absent bound unconstrained),
`Boolean` (used by the root-metadata shape's `consistent_snapshot: bool`),
`ListOf`, `DictOf`, `OneOf` (match at least one, in order), and `Object`
(required and `Optional` fields, each checked against its sub-schema;
unrecognized extra keys always permitted). An `Object` field is
`(name, optional?, sub-schema)`. -/

inductive Schema where
  | any : Schema
  | anyString : Schema
  | string : String → Schema
  | regex : Regex → Schema
  | integer : Option Int → Option Int → Schema
  | boolean : Schema
  | listOf : Schema → Schema
  | dictOf : Schema → Schema → Schema
  | oneOf : List Schema → Schema
  | object : List (String × Bool × Schema) → Schema

@[simp]
theorem Schema.sizeOf_pos (s : Schema) : 0 < sizeOf s := by
  cases s <;> simp_arith

mutual

/-- `schema.matches(value)`: the non-throwing boolean check; `check_match`
raises `FormatError` exactly when this is false. -/
def Schema.matches : Schema → Value → Bool
  | .any, _ => true
  | .anyString, .str _ => true
  | .anyString, _ => false
  | .string lit, .str s => s = lit
  | .string _, _ => false
  | .regex r, .str s => r.fullMatch s
  | .regex _, _ => false
  | .integer lo hi, .int n =>
      (match lo with | some l => decide (l ≤ n) | Option.none => true) &&
      (match hi with | some h => decide (n ≤ h) | Option.none => true)
  | .integer _ _, _ => false
  | .boolean, .bool _ => true
  | .boolean, _ => false
  | .listOf s, .list xs => listOk s xs
  | .listOf _, _ => false
  | .dictOf ks vs, .dict es => dictOk ks vs es
  | .dictOf _ _, _ => false
  | .oneOf ss, v => anyOk ss v
  | .object fs, .dict es => fieldsOk fs es
  | .object _, _ => false
termination_by s _ => (sizeOf s, 0)

/-- Every element of a list matches the element schema. -/
def Schema.listOk : Schema → List Value → Bool
  | _, [] => true
  | s, x :: xs => s.matches x && Schema.listOk s xs
termination_by s xs => (sizeOf s, sizeOf xs + 1)

/-- Every key matches the key schema and every value the value schema. -/
def Schema.dictOk : Schema → Schema → List (String × Value) → Bool
  | _, _, [] => true
  | ks, vs, (k, v) :: es =>
      ks.matches (.str k) && vs.matches v && Schema.dictOk ks vs es
termination_by ks vs es => (sizeOf ks + sizeOf vs, sizeOf es + 1)

/-- The value matches at least one schema of the list, tested in order. -/
def Schema.anyOk : List Schema → Value → Bool
  | [], _ => false
  | s :: ss, v => s.matches v || Schema.anyOk ss v
termination_by ss _ => (sizeOf ss, 0)

/-- Every declared field: a required field must be present and match its
sub-schema; an optional field may be absent but must match when present.
Keys of the dictionary not named by any field are ignored. -/
def Schema.fieldsOk : List (String × Bool × Schema) → List (String × Value) → Bool
  | [], _ => true
  | (name, opt, s) :: rest, es =>
      (match lookupVal es name with
       | some v => s.matches v
       | Option.none => opt) && Schema.fieldsOk rest es
termination_by fs _ => (sizeOf fs, 0)

end

/-! ### Format Catalog (src/formats.py)

The concrete schema instances of src/formats.py that the key database uses. -/

/-- `HASH_SCHEMA = SCHEMA.RegularExpression(r'[a-fA-F0-9]+')` (src/formats.py). -/
def HASH_SCHEMA : Schema := Schema.regex hexPattern

/-- `KEYID_SCHEMA = HASH_SCHEMA` (src/formats.py). -/
def KEYID_SCHEMA : Schema := HASH_SCHEMA

/-- `KEYVAL_SCHEMA`: Object with required AnyString `public` and Optional
AnyString `private` (src/formats.py). -/
def KEYVAL_SCHEMA : Schema :=
  Schema.object [("public", false, Schema.anyString),
                 ("private", true, Schema.anyString)]

/-- `KEYTYPE_SCHEMA = OneOf([String('rsa'), String('ed25519')])`
(src/formats.py). -/
def KEYTYPE_SCHEMA : Schema :=
  Schema.oneOf [Schema.string "rsa", Schema.string "ed25519"]

/-- `KEY_SCHEMA`: Object with AnyString `keytype` and `keyval` matching
`KEYVAL_SCHEMA` (src/formats.py). -/
def KEY_SCHEMA : Schema :=
  Schema.object [("keytype", false, Schema.anyString),
                 ("keyval", false, KEYVAL_SCHEMA)]

/-- `ANYKEY_SCHEMA`: Object with `keytype` matching `KEYTYPE_SCHEMA`,
`keyid` matching `KEYID_SCHEMA` and `keyval` matching `KEYVAL_SCHEMA`
(src/formats.py). -/
def ANYKEY_SCHEMA : Schema :=
  Schema.object [("keytype", false, KEYTYPE_SCHEMA),
                 ("keyid", false, KEYID_SCHEMA),
                 ("keyval", false, KEYVAL_SCHEMA)]

/-- Modelled from the spec: the role entry of a root metadata document,
`{keyids: list<keyid>, threshold: int ≥ 1}` (spec sections 3 and 6; the
concrete ROLE schema lives with the root-metadata code, not under src/). -/
def ROLE_SCHEMA : Schema :=
  Schema.object [("keyids", false, Schema.listOf KEYID_SCHEMA),
                 ("threshold", false, Schema.integer (some 1) Option.none)]

/-- Modelled from the spec: the root-of-trust document shape
`{version: int, expires: string, keys: map<keyid, Key>,
roles: map<roleName, Role>, consistent_snapshot: bool,
compression_algorithms: list<string>}` (spec sections 3 and 6; the concrete
ROOT schema lives with the root-metadata code, not under src/). The `keys`
map is checked like `KEYDICT_SCHEMA` of src/formats.py: keyids against
`KEYID_SCHEMA` and key objects against the permissive `KEY_SCHEMA`, so that
a key with an unsupported keytype still passes document validation and is
only skipped by the bootstrap loop. -/
def ROOT_SCHEMA : Schema :=
  Schema.object
    [("version", false, Schema.integer Option.none Option.none),
     ("expires", false, Schema.anyString),
     ("keys", false, Schema.dictOf KEYID_SCHEMA KEY_SCHEMA),
     ("roles", false, Schema.dictOf Schema.anyString ROLE_SCHEMA),
     ("consistent_snapshot", false, Schema.boolean),
     ("compression_algorithms", false, Schema.listOf Schema.anyString)]

/-! ### Error taxonomy (src/errors.py)

`FormatError`, `UnknownKeyError` and `KeyAlreadyExistsError` are distinct
subclasses of the generic `Error`; `genericError` stands for a bare
`Error` raise. -/

inductive Err where
  | formatError : Err
  | unknownKeyError : Err
  | keyAlreadyExistsError : Err
  | genericError : Err
deriving DecidableEq

/-! ### Key database

Modelled from the spec: `keydb.py` is not under src/ (only its unit tests,
src/tests/test_keydb.py, are). The registry is the process-wide mapping
keyid → key ('_keydb_dict'); it is threaded explicitly, and an operation
that raises returns the error and leaves the caller's registry untouched.
The contracts follow spec section 4.2 word for word: `add_key` validates the
key against the key schema, validates the supplied or derived keyid, rejects
a caller-supplied keyid different from the key's own keyid with the generic
`Error`, and rejects an already-registered keyid with
`KeyAlreadyExistsError`; `get_key` and `remove_key` validate the keyid
format first and fail with `UnknownKeyError` on an absent entry. -/

abbrev KeyDB := List (String × Value)

/-- Remove a keyid's binding from the registry (Python `del d[keyid]`). -/
def removeStr : List (String × Value) → String → List (String × Value)
  | [], _ => []
  | (k, v) :: rest, s =>
      if k = s then removeStr rest s else (k, v) :: removeStr rest s

/-- The key's own `keyid` field, `key['keyid']`. -/
def ownKeyid (key : Value) : Option Value :=
  match key with
  | .dict es => lookupVal es "keyid"
  | _ => Option.none

/-- Modelled from the spec: the duplicate check and store step shared by the
`add_key` paths — fails with `KeyAlreadyExistsError` if a key with that
identifier is already registered, otherwise stores the key and grows the
registry by one entry. -/
def storeKey (db : KeyDB) (kid : String) (key : Value) : Except Err KeyDB :=
  match lookupVal db kid with
  | some _ => Except.error Err.keyAlreadyExistsError
  | Option.none => Except.ok (db ++ [(kid, key)])

/-- Modelled from the spec: `add_key(key, keyid=None)` (spec section 4.2).
Checks, in order: the key against the key schema (`FormatError`), the
supplied or derived keyid against `KEYID_SCHEMA` (`FormatError`), a
caller-supplied keyid against the key's own keyid (generic `Error` on
mismatch — the keyid spoofing guard), then the duplicate check
(`KeyAlreadyExistsError`). On success returns the grown registry. -/
def add_key (db : KeyDB) (key : Value) (keyid : Option Value) : Except Err KeyDB :=
  if ¬ (ANYKEY_SCHEMA.matches key = true) then Except.error Err.formatError
  else
    match keyid with
    | Option.none =>
        match ownKeyid key with
        | some (Value.str s) =>
            if ¬ (KEYID_SCHEMA.matches (Value.str s) = true) then
              Except.error Err.formatError
            else storeKey db s key
        | _ => Except.error Err.formatError
    | some kid =>
        if ¬ (KEYID_SCHEMA.matches kid = true) then Except.error Err.formatError
        else
          match kid, ownKeyid key with
          | Value.str s, some (Value.str own) =>
              if s ≠ own then Except.error Err.genericError
              else storeKey db s key
          | _, _ => Except.error Err.genericError

/-- Modelled from the spec: `get_key(keyid)` (spec section 4.2). Fails with
`FormatError` if the keyid is not syntactically valid, with
`UnknownKeyError` if no key is registered under it, else returns the stored
key. -/
def get_key (db : KeyDB) (keyid : Value) : Except Err Value :=
  if ¬ (KEYID_SCHEMA.matches keyid = true) then Except.error Err.formatError
  else
    match keyid with
    | Value.str s =>
        match lookupVal db s with
        | some v => Except.ok v
        | Option.none => Except.error Err.unknownKeyError
    | _ => Except.error Err.formatError

/-- Modelled from the spec: `remove_key(keyid)` (spec section 4.2). Fails
with `FormatError` on malformed input before checking existence, with
`UnknownKeyError` if the keyid is absent, else removes the entry. -/
def remove_key (db : KeyDB) (keyid : Value) : Except Err KeyDB :=
  if ¬ (KEYID_SCHEMA.matches keyid = true) then Except.error Err.formatError
  else
    match keyid with
    | Value.str s =>
        match lookupVal db s with
        | some _ => Except.ok (removeStr db s)
        | Option.none => Except.error Err.unknownKeyError
    | _ => Except.error Err.formatError

/-! ### Root trust bootstrap -/

/-- Is the key's `keytype` one of the supported types
(`KEYTYPE_SCHEMA` of src/formats.py)? -/
def supportedKeytype (key : Value) : Bool :=
  match key with
  | .dict es =>
      match lookupVal es "keytype" with
      | some kt => KEYTYPE_SCHEMA.matches kt
      | Option.none => false
  | _ => false

/-- Modelled from the spec: one iteration of the bootstrap loop over a
`(keyid, key)` pair of the root document's `keys` map (spec section 4.3).
An unsupported keytype is skipped; a declared keyid that differs from the
keyid recomputed from the key's material (`canon`, the opaque
canonicalization capability of spec section 6) is skipped; a keyid already
registered is skipped (add-or-skip, never `KeyAlreadyExistsError`);
otherwise the key is registered under its verified keyid. -/
def bootstrapEntry (canon : Value → String) (db : KeyDB) (kid : String)
    (key : Value) : KeyDB :=
  if ¬ (supportedKeytype key = true) then db
  else if canon key ≠ kid then db
  else
    match lookupVal db kid with
    | some _ => db
    | Option.none => db ++ [(kid, key)]

/-- Modelled from the spec: `create_keydb_from_root_metadata(root_metadata)`
(spec section 4.3). Validates the document against the root-metadata schema
(`FormatError` when malformed — the only failure mode), then folds the
per-entry add-or-skip step over the `keys` map; the registry is populated
additively. -/
def create_keydb_from_root_metadata (canon : Value → String) (db : KeyDB)
    (root : Value) : Except Err KeyDB :=
  if ¬ (ROOT_SCHEMA.matches root = true) then Except.error Err.formatError
  else
    match root with
    | Value.dict es =>
        match lookupVal es "keys" with
        | some (Value.dict keyEntries) =>
            Except.ok (keyEntries.foldl
              (fun acc p => bootstrapEntry canon acc p.1 p.2) db)
        | _ => Except.error Err.formatError
    | _ => Except.error Err.formatError

/-! ### Lemmas on the regular-expression matcher -/

theorem Regex.matchChars_void (cs : List Char) :
    Regex.void.matchChars cs = false := by
  cases cs with
  | nil => rfl
  | cons c cs => simp [Regex.matchChars, Regex.deriv, Regex.matchChars_void cs]

theorem Regex.matchChars_alt (cs : List Char) (a b : Regex) :
    (Regex.alt a b).matchChars cs = (a.matchChars cs || b.matchChars cs) := by
  induction cs generalizing a b with
  | nil => simp [Regex.matchChars, Regex.nullable]
  | cons c cs ih => simp [Regex.matchChars, Regex.deriv, ih]

theorem Regex.matchChars_seq_void (cs : List Char) (r : Regex) :
    (Regex.seq Regex.void r).matchChars cs = false := by
  induction cs with
  | nil => simp [Regex.matchChars, Regex.nullable]
  | cons c cs ih => simpa [Regex.matchChars, Regex.deriv, Regex.nullable] using ih

theorem Regex.matchChars_seq_emp (cs : List Char) (r : Regex) :
    (Regex.seq Regex.emp r).matchChars cs = r.matchChars cs := by
  cases cs with
  | nil => simp [Regex.matchChars, Regex.nullable]
  | cons c cs =>
      simp [Regex.matchChars, Regex.deriv, Regex.nullable, Regex.matchChars_alt,
        Regex.matchChars_seq_void]

theorem Regex.matchChars_star_cls (ranges : List (Char × Char)) (cs : List Char) :
    (Regex.star (Regex.cls ranges)).matchChars cs = cs.all (inRanges ranges) := by
  induction cs with
  | nil => rfl
  | cons c cs ih =>
      by_cases h : inRanges ranges c = true
      · simp [Regex.matchChars, Regex.deriv, h, Regex.matchChars_seq_emp, ih]
      · simp only [Bool.not_eq_true] at h
        simp [Regex.matchChars, Regex.deriv, h, Regex.matchChars_seq_void]

theorem Regex.matchChars_plus_cls (ranges : List (Char × Char)) (cs : List Char) :
    (Regex.plus (Regex.cls ranges)).matchChars cs =
      (decide (cs ≠ []) && cs.all (inRanges ranges)) := by
  cases cs with
  | nil => rfl
  | cons c cs =>
      by_cases h : inRanges ranges c = true
      · simp [Regex.matchChars, Regex.deriv, h, Regex.matchChars_seq_emp,
          Regex.matchChars_star_cls]
      · simp only [Bool.not_eq_true] at h
        simp [Regex.matchChars, Regex.deriv, h, Regex.matchChars_seq_void]

/-- A hexadecimal digit, the character class `[a-fA-F0-9]`. -/
def isHexDigit (c : Char) : Bool :=
  ('a' ≤ c && c ≤ 'f') || ('A' ≤ c && c ≤ 'F') || ('0' ≤ c && c ≤ '9')

theorem inRanges_hex (c : Char) :
    inRanges [('a', 'f'), ('A', 'F'), ('0', '9')] c = isHexDigit c := by
  simp [inRanges, isHexDigit, List.any, Bool.or_assoc]

/-- Claim C8: the `RegularExpression` schema performs an anchored full-string
match, not a substring search: the keyid schema is the hash schema, and the
hash schema (pattern `[a-fA-F0-9]+`) matches a value exactly when it is a
string, it is non-empty, and every one of its characters is a hexadecimal
digit; in particular a string with a valid hex prefix followed by a non-hex
character does not match. -/
theorem regex_schema_anchored_full_match :
    KEYID_SCHEMA = HASH_SCHEMA ∧
    (∀ v : Value, HASH_SCHEMA.matches v = true ↔
      ∃ s : String, v = Value.str s ∧ s.data ≠ [] ∧
        ∀ c ∈ s.data, isHexDigit c = true) ∧
    HASH_SCHEMA.matches (Value.str "23432df87ab!") = false := by
  refine ⟨rfl, ?_, by
    simp [HASH_SCHEMA, Schema.matches, Regex.fullMatch, hexPattern,
      Regex.matchChars_plus_cls, inRanges_hex]
    decide⟩
  intro v
  cases v with
  | str s =>
      simp [HASH_SCHEMA, Schema.matches, Regex.fullMatch, hexPattern,
        Regex.matchChars_plus_cls, inRanges_hex, List.all_eq_true]
  | int n => simp [HASH_SCHEMA, Schema.matches]
  | bool b => simp [HASH_SCHEMA, Schema.matches]
  | none => simp [HASH_SCHEMA, Schema.matches]
  | list xs => simp [HASH_SCHEMA, Schema.matches]
  | dict es => simp [HASH_SCHEMA, Schema.matches]

/-! ### Lemmas on dictionary lookup, removal and the registry -/

theorem lookupVal_append (l1 l2 : List (String × Value)) (n : String) :
    lookupVal (l1 ++ l2) n =
      (match lookupVal l1 n with
       | some v => some v
       | Option.none => lookupVal l2 n) := by
  induction l1 with
  | nil => simp [lookupVal]
  | cons p l1 ih =>
      obtain ⟨k, v⟩ := p
      by_cases h : k = n <;> simp [lookupVal, h, ih]

theorem lookupVal_append_left (l1 l2 : List (String × Value)) (n : String)
    (v : Value) (h : lookupVal l1 n = some v) :
    lookupVal (l1 ++ l2) n = some v := by
  rw [lookupVal_append, h]

theorem lookupVal_append_right (l1 l2 : List (String × Value)) (n : String)
    (h : lookupVal l1 n = Option.none) :
    lookupVal (l1 ++ l2) n = lookupVal l2 n := by
  rw [lookupVal_append, h]

theorem lookupVal_none_of_no_key (l : List (String × Value)) (n : String)
    (h : ∀ p ∈ l, p.1 ≠ n) : lookupVal l n = Option.none := by
  induction l with
  | nil => rfl
  | cons p l ih =>
      obtain ⟨k, v⟩ := p
      have hk : k ≠ n := h (k, v) (List.mem_cons_self _ _)
      simp only [lookupVal, if_neg hk]
      exact ih fun q hq => h q (List.mem_cons_of_mem _ hq)

theorem lookupVal_removeStr_self (l : List (String × Value)) (s : String) :
    lookupVal (removeStr l s) s = Option.none := by
  induction l with
  | nil => rfl
  | cons p l ih =>
      obtain ⟨k, v⟩ := p
      by_cases h : k = s <;> simp [removeStr, lookupVal, h, ih]

theorem lookupVal_removeStr_other (l : List (String × Value)) (s t : String)
    (h : t ≠ s) : lookupVal (removeStr l s) t = lookupVal l t := by
  induction l with
  | nil => rfl
  | cons p l ih =>
      obtain ⟨k, v⟩ := p
      by_cases hk : k = s
      · subst hk
        simp [removeStr, lookupVal, Ne.symm h, ih]
      · by_cases ht : k = t <;> simp [removeStr, lookupVal, hk, ht, h, ih]

/-! ### Inversion lemmas on the concrete schemas -/

theorem matches_object_dict (fs : List (String × Bool × Schema)) (v : Value)
    (h : Schema.matches (Schema.object fs) v = true) :
    ∃ es, v = Value.dict es := by
  cases v with
  | dict es => exact ⟨es, rfl⟩
  | str s => simp [Schema.matches] at h
  | int n => simp [Schema.matches] at h
  | bool b => simp [Schema.matches] at h
  | none => simp [Schema.matches] at h
  | list xs => simp [Schema.matches] at h

/-- A structurally valid key carries a keyid that is itself a well-formed
keyid value. -/
theorem anykey_keyid_matches (es : List (String × Value)) (kid : Value)
    (hk : ANYKEY_SCHEMA.matches (Value.dict es) = true)
    (hown : lookupVal es "keyid" = some kid) :
    KEYID_SCHEMA.matches kid = true := by
  simp only [ANYKEY_SCHEMA, Schema.matches, Schema.fieldsOk, hown,
    Bool.and_eq_true] at hk
  exact hk.2.1

/-- A keyid string is well-formed exactly when it is non-empty hex. -/
theorem keyid_matches_str (s : String) :
    KEYID_SCHEMA.matches (Value.str s) = true ↔
      s.data ≠ [] ∧ ∀ c ∈ s.data, isHexDigit c = true := by
  simp [KEYID_SCHEMA, HASH_SCHEMA, Schema.matches, Regex.fullMatch, hexPattern,
    Regex.matchChars_plus_cls, inRanges_hex, List.all_eq_true]

/-- The malformed keyid inputs of claim C4: `None`, an integer, a boolean, a
list, a dict, or the empty string. -/
def malformedKeyid (v : Value) : Prop :=
  v = Value.none ∨ (∃ n, v = Value.int n) ∨ (∃ b, v = Value.bool b) ∨
  (∃ xs, v = Value.list xs) ∨ (∃ es, v = Value.dict es) ∨ v = Value.str ""

theorem keyid_malformed (v : Value) (h : malformedKeyid v) :
    KEYID_SCHEMA.matches v = false := by
  rcases h with h | ⟨n, h⟩ | ⟨b, h⟩ | ⟨xs, h⟩ | ⟨es, h⟩ | h <;> subst h <;>
    simp [KEYID_SCHEMA, HASH_SCHEMA, Schema.matches, Regex.fullMatch,
      hexPattern, Regex.matchChars, Regex.nullable]

/-! ### The key database claims -/

/-- Claim C1: for every structurally valid key and every well-formed keyid
string different from the key's own keyid, `add_key(key, keyid)` fails with
the generic `Error` — not `FormatError`, not `KeyAlreadyExistsError` — for
every registry state, and the registry is unchanged (an erroring operation
returns only the error, never a new registry): a caller can never register a
key under an identifier that is not the key's own keyid. -/
theorem add_key_keyid_spoof_guard (db : KeyDB) (key : Value) (s own : String)
    (hk : ANYKEY_SCHEMA.matches key = true)
    (hown : ownKeyid key = some (Value.str own))
    (hid : KEYID_SCHEMA.matches (Value.str s) = true)
    (hne : s ≠ own) :
    add_key db key (some (Value.str s)) = Except.error Err.genericError := by
  simp [add_key, hk, hid, hown, hne]

theorem add_key_keyid_spoof_guard_witness :
    add_key [] (Value.dict [("keytype", Value.str "rsa"),
        ("keyid", Value.str "aa"),
        ("keyval", Value.dict [("public", Value.str "pubkey1")])])
      (some (Value.str "bb")) = Except.error Err.genericError :=
  add_key_keyid_spoof_guard [] _ "bb" "aa"
    (by
      simp [ANYKEY_SCHEMA, KEYTYPE_SCHEMA, KEYVAL_SCHEMA, KEYID_SCHEMA,
        HASH_SCHEMA, Schema.matches, Schema.fieldsOk, Schema.anyOk, lookupVal,
        Regex.fullMatch, hexPattern, Regex.matchChars_plus_cls, inRanges_hex]
      decide)
    (by rfl)
    (by rw [keyid_matches_str]; decide)
    (by decide)

/-- Claim C2: for every valid key not already registered, `add_key` succeeds
(with the keyid either omitted and derived from the key, or supplied as the
key's own keyid), growing the registry by exactly that entry, and a
subsequent `get_key` of the key's keyid returns the stored key. -/
theorem add_key_then_get_key (db : KeyDB) (key : Value) (s : String)
    (hk : ANYKEY_SCHEMA.matches key = true)
    (hown : ownKeyid key = some (Value.str s))
    (hfresh : lookupVal db s = Option.none) :
    add_key db key Option.none = Except.ok (db ++ [(s, key)]) ∧
    add_key db key (some (Value.str s)) = Except.ok (db ++ [(s, key)]) ∧
    get_key (db ++ [(s, key)]) (Value.str s) = Except.ok key := by
  obtain ⟨es, hes⟩ := matches_object_dict _ _ hk
  have hid : KEYID_SCHEMA.matches (Value.str s) = true := by
    refine anykey_keyid_matches es _ (hes ▸ hk) ?_
    simpa [ownKeyid, hes] using hown
  have hlook : lookupVal (db ++ [(s, key)]) s = some key := by
    rw [lookupVal_append_right _ _ _ hfresh]
    simp [lookupVal]
  refine ⟨?_, ?_, ?_⟩
  · simp [add_key, hk, hown, hid, storeKey, hfresh]
  · simp [add_key, hk, hown, hid, storeKey, hfresh]
  · simp [get_key, hid, hlook]

theorem add_key_then_get_key_witness :
    add_key [] (Value.dict [("keytype", Value.str "rsa"),
        ("keyid", Value.str "aa"),
        ("keyval", Value.dict [("public", Value.str "pubkey1")])])
      Option.none =
      Except.ok [("aa", Value.dict [("keytype", Value.str "rsa"),
        ("keyid", Value.str "aa"),
        ("keyval", Value.dict [("public", Value.str "pubkey1")])])] ∧
    add_key [] (Value.dict [("keytype", Value.str "rsa"),
        ("keyid", Value.str "aa"),
        ("keyval", Value.dict [("public", Value.str "pubkey1")])])
      (some (Value.str "aa")) =
      Except.ok [("aa", Value.dict [("keytype", Value.str "rsa"),
        ("keyid", Value.str "aa"),
        ("keyval", Value.dict [("public", Value.str "pubkey1")])])] ∧
    get_key [("aa", Value.dict [("keytype", Value.str "rsa"),
        ("keyid", Value.str "aa"),
        ("keyval", Value.dict [("public", Value.str "pubkey1")])])]
      (Value.str "aa") =
      Except.ok (Value.dict [("keytype", Value.str "rsa"),
        ("keyid", Value.str "aa"),
        ("keyval", Value.dict [("public", Value.str "pubkey1")])]) :=
  add_key_then_get_key [] _ "aa"
    (by
      simp [ANYKEY_SCHEMA, KEYTYPE_SCHEMA, KEYVAL_SCHEMA, KEYID_SCHEMA,
        HASH_SCHEMA, Schema.matches, Schema.fieldsOk, Schema.anyOk, lookupVal,
        Regex.fullMatch, hexPattern, Regex.matchChars_plus_cls, inRanges_hex]
      decide)
    (by rfl)
    (by rfl)

/-- Claim C3: after a successful `add_key` of a valid key, a second
`add_key` under the same keyid — the keyid passed explicitly or derived from
the key — fails with `KeyAlreadyExistsError`, and after the failure the
registry still maps that keyid to exactly the first stored value (an
erroring operation returns only the error, so the registry is the one the
first call produced). -/
theorem add_key_duplicate_rejected (db : KeyDB) (key key2 : Value) (s : String)
    (hk : ANYKEY_SCHEMA.matches key = true)
    (hown : ownKeyid key = some (Value.str s))
    (hk2 : ANYKEY_SCHEMA.matches key2 = true)
    (hown2 : ownKeyid key2 = some (Value.str s))
    (hfresh : lookupVal db s = Option.none) :
    add_key db key Option.none = Except.ok (db ++ [(s, key)]) ∧
    add_key (db ++ [(s, key)]) key2 (some (Value.str s)) =
      Except.error Err.keyAlreadyExistsError ∧
    add_key (db ++ [(s, key)]) key2 Option.none =
      Except.error Err.keyAlreadyExistsError ∧
    lookupVal (db ++ [(s, key)]) s = some key := by
  obtain ⟨es, hes⟩ := matches_object_dict _ _ hk
  have hid : KEYID_SCHEMA.matches (Value.str s) = true := by
    refine anykey_keyid_matches es _ (hes ▸ hk) ?_
    simpa [ownKeyid, hes] using hown
  have hlook : lookupVal (db ++ [(s, key)]) s = some key := by
    rw [lookupVal_append_right _ _ _ hfresh]
    simp [lookupVal]
  refine ⟨?_, ?_, ?_, hlook⟩
  · simp [add_key, hk, hown, hid, storeKey, hfresh]
  · simp [add_key, hk2, hown2, hid, storeKey, hlook]
  · simp [add_key, hk2, hown2, hid, storeKey, hlook]

theorem add_key_duplicate_rejected_witness :
    add_key [] (Value.dict [("keytype", Value.str "rsa"),
        ("keyid", Value.str "aa"),
        ("keyval", Value.dict [("public", Value.str "pubkey1")])])
      Option.none =
      Except.ok [("aa", Value.dict [("keytype", Value.str "rsa"),
        ("keyid", Value.str "aa"),
        ("keyval", Value.dict [("public", Value.str "pubkey1")])])] ∧
    add_key [("aa", Value.dict [("keytype", Value.str "rsa"),
        ("keyid", Value.str "aa"),
        ("keyval", Value.dict [("public", Value.str "pubkey1")])])]
      (Value.dict [("keytype", Value.str "rsa"),
        ("keyid", Value.str "aa"),
        ("keyval", Value.dict [("public", Value.str "pubkey1")])])
      (some (Value.str "aa")) = Except.error Err.keyAlreadyExistsError ∧
    add_key [("aa", Value.dict [("keytype", Value.str "rsa"),
        ("keyid", Value.str "aa"),
        ("keyval", Value.dict [("public", Value.str "pubkey1")])])]
      (Value.dict [("keytype", Value.str "rsa"),
        ("keyid", Value.str "aa"),
        ("keyval", Value.dict [("public", Value.str "pubkey1")])])
      Option.none = Except.error Err.keyAlreadyExistsError ∧
    lookupVal [("aa", Value.dict [("keytype", Value.str "rsa"),
        ("keyid", Value.str "aa"),
        ("keyval", Value.dict [("public", Value.str "pubkey1")])])] "aa" =
      some (Value.dict [("keytype", Value.str "rsa"),
        ("keyid", Value.str "aa"),
        ("keyval", Value.dict [("public", Value.str "pubkey1")])]) :=
  add_key_duplicate_rejected [] _ _ "aa"
    (by
      simp [ANYKEY_SCHEMA, KEYTYPE_SCHEMA, KEYVAL_SCHEMA, KEYID_SCHEMA,
        HASH_SCHEMA, Schema.matches, Schema.fieldsOk, Schema.anyOk, lookupVal,
        Regex.fullMatch, hexPattern, Regex.matchChars_plus_cls, inRanges_hex]
      decide)
    (by rfl)
    (by
      simp [ANYKEY_SCHEMA, KEYTYPE_SCHEMA, KEYVAL_SCHEMA, KEYID_SCHEMA,
        HASH_SCHEMA, Schema.matches, Schema.fieldsOk, Schema.anyOk, lookupVal,
        Regex.fullMatch, hexPattern, Regex.matchChars_plus_cls, inRanges_hex]
      decide)
    (by rfl)
    (by rfl)

/-- Claim C4: every input that is not a well-formed keyid string — `None`,
an integer, a boolean, a list, a dict, or the empty string — passed as the
keyid parameter of `get_key`, `remove_key`, or `add_key` fails with
`FormatError` and never with `UnknownKeyError`, regardless of the registry's
contents and of the key argument. -/
theorem malformed_keyid_format_error (db : KeyDB) (key v : Value)
    (h : malformedKeyid v) :
    get_key db v = Except.error Err.formatError ∧
    remove_key db v = Except.error Err.formatError ∧
    add_key db key (some v) = Except.error Err.formatError := by
  have hm := keyid_malformed v h
  refine ⟨by simp [get_key, hm], by simp [remove_key, hm], ?_⟩
  by_cases hak : ANYKEY_SCHEMA.matches key = true
  · simp [add_key, hak, hm]
  · simp [add_key, hak]

theorem malformed_keyid_format_error_witness :
    get_key [] (Value.str "") = Except.error Err.formatError ∧
    remove_key [] (Value.str "") = Except.error Err.formatError ∧
    add_key [] Value.none (some (Value.str "")) =
      Except.error Err.formatError :=
  malformed_keyid_format_error [] Value.none (Value.str "")
    (Or.inr (Or.inr (Or.inr (Or.inr (Or.inr rfl)))))

/-- Claim C7: `remove_key` checks the keyid's format before existence: for
malformed input it fails with `FormatError` even when the registry is in any
state, including empty; for a well-formed keyid with no registered key it
fails with `UnknownKeyError`; and after a successful `remove_key`, `get_key`
and a second `remove_key` of the same keyid fail with `UnknownKeyError`
while every other registered keyid still resolves exactly as before. -/
theorem remove_key_contract (db : KeyDB) (s : String) (v : Value)
    (hmal : malformedKeyid v)
    (hid : KEYID_SCHEMA.matches (Value.str s) = true) :
    remove_key db v = Except.error Err.formatError ∧
    remove_key [] v = Except.error Err.formatError ∧
    (lookupVal db s = Option.none →
      remove_key db (Value.str s) = Except.error Err.unknownKeyError) ∧
    (∀ w, lookupVal db s = some w →
      remove_key db (Value.str s) = Except.ok (removeStr db s) ∧
      get_key (removeStr db s) (Value.str s) =
        Except.error Err.unknownKeyError ∧
      remove_key (removeStr db s) (Value.str s) =
        Except.error Err.unknownKeyError ∧
      ∀ t, t ≠ s → lookupVal (removeStr db s) t = lookupVal db t) := by
  have hm := keyid_malformed v hmal
  refine ⟨by simp [remove_key, hm], by simp [remove_key, hm], ?_, ?_⟩
  · intro habs
    simp [remove_key, hid, habs]
  · intro w hpres
    have hgone : lookupVal (removeStr db s) s = Option.none :=
      lookupVal_removeStr_self db s
    refine ⟨by simp [remove_key, hid, hpres], ?_, ?_, ?_⟩
    · simp [get_key, hid, hgone]
    · simp [remove_key, hid, hgone]
    · intro t ht
      exact lookupVal_removeStr_other db s t ht

theorem remove_key_contract_witness :
    remove_key [("aa", Value.str "k1"), ("bb", Value.str "k2")]
      (Value.int 123) = Except.error Err.formatError ∧
    remove_key [] (Value.int 123) = Except.error Err.formatError ∧
    (lookupVal [("aa", Value.str "k1"), ("bb", Value.str "k2")] "cc" =
        Option.none →
      remove_key [("aa", Value.str "k1"), ("bb", Value.str "k2")]
        (Value.str "cc") = Except.error Err.unknownKeyError) ∧
    (∀ w, lookupVal [("aa", Value.str "k1"), ("bb", Value.str "k2")] "cc" =
        some w →
      remove_key [("aa", Value.str "k1"), ("bb", Value.str "k2")]
        (Value.str "cc") =
        Except.ok (removeStr [("aa", Value.str "k1"),
          ("bb", Value.str "k2")] "cc") ∧
      get_key (removeStr [("aa", Value.str "k1"),
          ("bb", Value.str "k2")] "cc") (Value.str "cc") =
        Except.error Err.unknownKeyError ∧
      remove_key (removeStr [("aa", Value.str "k1"),
          ("bb", Value.str "k2")] "cc") (Value.str "cc") =
        Except.error Err.unknownKeyError ∧
      ∀ t, t ≠ "cc" →
        lookupVal (removeStr [("aa", Value.str "k1"),
          ("bb", Value.str "k2")] "cc") t =
        lookupVal [("aa", Value.str "k1"), ("bb", Value.str "k2")] t) :=
  remove_key_contract [("aa", Value.str "k1"), ("bb", Value.str "k2")] "cc"
    (Value.int 123)
    (Or.inr (Or.inl ⟨123, rfl⟩))
    (by rw [keyid_matches_str]; decide)

/-! ### Lemmas on the bootstrap loop -/

/-- The bootstrap loop's fold over the `keys` map of a root document. -/
def bootstrapFold (canon : Value → String) (db : KeyDB)
    (entries : List (String × Value)) : KeyDB :=
  entries.foldl (fun acc p => bootstrapEntry canon acc p.1 p.2) db

theorem lookupVal_append_single_other (db : KeyDB) (k : String) (v : Value)
    (t : String) (h : k ≠ t) : lookupVal (db ++ [(k, v)]) t = lookupVal db t := by
  rw [lookupVal_append]
  cases lookupVal db t <;> simp [lookupVal, h]

theorem bootstrapEntry_not_registrable (canon : Value → String) (db : KeyDB)
    (kid : String) (key : Value)
    (h : ¬ (supportedKeytype key = true ∧ canon key = kid)) :
    bootstrapEntry canon db kid key = db := by
  by_cases h1 : supportedKeytype key = true
  · have h2 : canon key ≠ kid := fun hc => h ⟨h1, hc⟩
    simp [bootstrapEntry, h1, h2]
  · simp [bootstrapEntry, h1]

theorem bootstrapEntry_keeps_some (canon : Value → String) (db : KeyDB)
    (kid : String) (key : Value) (t : String) (v : Value)
    (h : lookupVal db t = some v) :
    lookupVal (bootstrapEntry canon db kid key) t = some v := by
  by_cases h1 : supportedKeytype key = true
  · by_cases h2 : canon key = kid
    · cases hl : lookupVal db kid with
      | some w => simp [bootstrapEntry, h1, h2, hl, h]
      | none =>
          simp only [bootstrapEntry, h1, h2, hl]
          simp only [not_true_eq_false, if_false, ne_eq, not_true_eq_false,
            if_false]
          exact lookupVal_append_left _ _ _ _ h
    · simp [bootstrapEntry, h1, h2, h]
  · simp [bootstrapEntry, h1, h]

theorem bootstrapEntry_other_key (canon : Value → String) (db : KeyDB)
    (kid : String) (key : Value) (t : String) (hne : kid ≠ t) :
    lookupVal (bootstrapEntry canon db kid key) t = lookupVal db t := by
  by_cases h1 : supportedKeytype key = true
  · by_cases h2 : canon key = kid
    · cases hl : lookupVal db kid with
      | some w => simp [bootstrapEntry, h1, h2, hl]
      | none =>
          simp only [bootstrapEntry, h1, h2, hl]
          simp only [not_true_eq_false, if_false, ne_eq, not_true_eq_false,
            if_false]
          exact lookupVal_append_single_other _ _ _ _ hne
    · simp [bootstrapEntry, h1, h2]
  · simp [bootstrapEntry, h1]

theorem bootstrapFold_keeps_some (canon : Value → String)
    (entries : List (String × Value)) (db : KeyDB) (t : String) (v : Value)
    (h : lookupVal db t = some v) :
    lookupVal (bootstrapFold canon db entries) t = some v := by
  induction entries generalizing db with
  | nil => exact h
  | cons p rest ih =>
      exact ih _ (bootstrapEntry_keeps_some canon db p.1 p.2 t v h)

/-- Entries that are all unregistrable under a keyid leave that keyid's
binding untouched. -/
theorem bootstrapFold_skips (canon : Value → String)
    (entries : List (String × Value)) (db : KeyDB) (kid : String)
    (h : ∀ p ∈ entries, p.1 = kid →
      ¬ (supportedKeytype p.2 = true ∧ canon p.2 = kid)) :
    lookupVal (bootstrapFold canon db entries) kid = lookupVal db kid := by
  induction entries generalizing db with
  | nil => rfl
  | cons p rest ih =>
      obtain ⟨k, key⟩ := p
      have hrest : ∀ q ∈ rest, q.1 = kid →
          ¬ (supportedKeytype q.2 = true ∧ canon q.2 = kid) :=
        fun q hq => h q (List.mem_cons_of_mem _ hq)
      by_cases hk : k = kid
      · have hstep : bootstrapEntry canon db k key = db :=
          bootstrapEntry_not_registrable canon db k key
            (hk ▸ h (k, key) (List.mem_cons_self _ _) hk)
        calc lookupVal (bootstrapFold canon (bootstrapEntry canon db k key) rest) kid
            = lookupVal (bootstrapFold canon db rest) kid := by rw [hstep]
          _ = lookupVal db kid := ih db hrest
      · calc lookupVal (bootstrapFold canon (bootstrapEntry canon db k key) rest) kid
            = lookupVal (bootstrapEntry canon db k key) kid := ih _ hrest
          _ = lookupVal db kid := bootstrapEntry_other_key canon db k key kid hk

/-- An entry that is registrable under a fresh keyid — and is the only key
object appearing under that keyid — ends up registered by the fold. -/
theorem bootstrapFold_registers (canon : Value → String)
    (entries : List (String × Value)) (db : KeyDB) (kid : String) (key : Value)
    (hall : ∀ p ∈ entries, p.1 = kid →
      p.2 = key ∧ supportedKeytype p.2 = true ∧ canon p.2 = kid)
    (hmem : (kid, key) ∈ entries)
    (hfresh : lookupVal db kid = Option.none) :
    lookupVal (bootstrapFold canon db entries) kid = some key := by
  induction entries generalizing db with
  | nil => cases hmem
  | cons p rest ih =>
      obtain ⟨k, key'⟩ := p
      by_cases hk : k = kid
      · subst hk
        have h0 := hall (k, key') (List.mem_cons_self _ _) rfl
        have hkey2 : key' = key := h0.1
        have hsup : supportedKeytype key' = true := h0.2.1
        have hcanon : canon key' = k := h0.2.2
        have hstep : bootstrapEntry canon db k key' = db ++ [(k, key')] := by
          simp [bootstrapEntry, hsup, hcanon, hfresh]
        have hlook : lookupVal (db ++ [(k, key')]) k = some key := by
          rw [lookupVal_append_right _ _ _ hfresh]
          simp [lookupVal, hkey2]
        calc lookupVal (bootstrapFold canon (bootstrapEntry canon db k key') rest) k
            = lookupVal (bootstrapFold canon (db ++ [(k, key')]) rest) k := by
              rw [hstep]
          _ = some key := bootstrapFold_keeps_some canon rest _ k key hlook
      · have hmem' : (kid, key) ∈ rest := by
          rcases List.mem_cons.mp hmem with heq | h
          · cases heq
            exact absurd rfl hk
          · exact h
        have hkeep : lookupVal (bootstrapEntry canon db k key') kid =
            Option.none :=
          (bootstrapEntry_other_key canon db k key' kid hk).trans hfresh
        exact ih _ (fun q hq => hall q (List.mem_cons_of_mem _ hq)) hmem' hkeep

theorem dictOk_mem (ks vs : Schema) (entries : List (String × Value))
    (k : String) (v : Value) (h : Schema.dictOk ks vs entries = true)
    (hm : (k, v) ∈ entries) :
    ks.matches (Value.str k) = true ∧ vs.matches v = true := by
  induction entries with
  | nil => cases hm
  | cons p rest ih =>
      obtain ⟨k', v'⟩ := p
      simp only [Schema.dictOk, Bool.and_eq_true] at h
      rcases List.mem_cons.mp hm with heq | hmem
      · cases heq
        exact ⟨h.1.1, h.1.2⟩
      · exact ih h.2 hmem

/-- From a root document that validates, the `keys` map's entries each carry
a well-formed keyid and a `KEY_SCHEMA`-conformant key object. -/
theorem root_keys_dictOk (es keyEntries : List (String × Value))
    (hmatch : ROOT_SCHEMA.matches (Value.dict es) = true)
    (hkeys : lookupVal es "keys" = some (Value.dict keyEntries)) :
    Schema.dictOk KEYID_SCHEMA KEY_SCHEMA keyEntries = true := by
  simp only [ROOT_SCHEMA, Schema.matches, Schema.fieldsOk, hkeys,
    Bool.and_eq_true] at hmatch
  exact hmatch.2.2.1

/-- Claim C5: for a root metadata document that validates,
`create_keydb_from_root_metadata` never raises, even when some `keys`
entries are bad: a keyid under which every entry is unregistrable — its key
has an unsupported keytype, or the declared map keyid does not match the
keyid recomputed from the key's material — stays unregistered, while a
valid entry (registrable, fresh, and the only key object under its keyid)
is still registered and retrievable through `get_key`. -/
theorem bootstrap_tolerates_bad_entries (canon : Value → String) (db : KeyDB)
    (es keyEntries : List (String × Value))
    (hmatch : ROOT_SCHEMA.matches (Value.dict es) = true)
    (hkeys : lookupVal es "keys" = some (Value.dict keyEntries)) :
    create_keydb_from_root_metadata canon db (Value.dict es) =
      Except.ok (bootstrapFold canon db keyEntries) ∧
    (∀ kid, (∀ p ∈ keyEntries, p.1 = kid →
        ¬ (supportedKeytype p.2 = true ∧ canon p.2 = kid)) →
      lookupVal db kid = Option.none →
      lookupVal (bootstrapFold canon db keyEntries) kid = Option.none) ∧
    (∀ kid key, (kid, key) ∈ keyEntries →
      (∀ p ∈ keyEntries, p.1 = kid →
        p.2 = key ∧ supportedKeytype p.2 = true ∧ canon p.2 = kid) →
      lookupVal db kid = Option.none →
      get_key (bootstrapFold canon db keyEntries) (Value.str kid) =
        Except.ok key) := by
  refine ⟨?_, ?_, ?_⟩
  · simp [create_keydb_from_root_metadata, hmatch, hkeys, bootstrapFold]
  · intro kid hbad hfresh
    rw [bootstrapFold_skips canon keyEntries db kid hbad]
    exact hfresh
  · intro kid key hmem hall hfresh
    have hid : KEYID_SCHEMA.matches (Value.str kid) = true :=
      (dictOk_mem _ _ _ _ _ (root_keys_dictOk es keyEntries hmatch hkeys)
        hmem).1
    have hlook := bootstrapFold_registers canon keyEntries db kid key hall
      hmem hfresh
    simp [get_key, hid, hlook]

/-- The opaque canonicalization capability instantiated for concrete test
inputs: recompute a key's keyid as its own `keyid` field (the sample keys
below are built so that this agrees with hashing the key's material). -/
def sampleCanon : Value → String := fun v =>
  match ownKeyid v with
  | some (Value.str s) => s
  | _ => ""

/-- A valid rsa key whose material canonicalizes to keyid `aa`. -/
def sampleGoodKey : Value :=
  Value.dict [("keytype", Value.str "rsa"), ("keyid", Value.str "aa"),
    ("keyval", Value.dict [("public", Value.str "pubkey1")])]

/-- A key with an unsupported keytype, declared under keyid `bb`. -/
def sampleBadTypeKey : Value :=
  Value.dict [("keytype", Value.str "bad_keytype"),
    ("keyid", Value.str "bb"),
    ("keyval", Value.dict [("public", Value.str "pubkey2")])]

/-- A valid rsa key whose material canonicalizes to keyid `dd`; the sample
root document declares it under the non-matching map keyid `cc`. -/
def sampleMismatchKey : Value :=
  Value.dict [("keytype", Value.str "rsa"), ("keyid", Value.str "dd"),
    ("keyval", Value.dict [("public", Value.str "pubkey3")])]

/-- A well-formed root document with one good `keys` entry (`aa`), one entry
with an unsupported keytype (`bb`), and one entry whose declared keyid does
not match the recomputed keyid (`cc`). -/
def sampleRootDoc : List (String × Value) :=
  [("version", Value.int 8),
   ("expires", Value.str "1985-10-21T01:21:00Z"),
   ("keys", Value.dict [("aa", sampleGoodKey), ("bb", sampleBadTypeKey),
     ("cc", sampleMismatchKey)]),
   ("roles", Value.dict [("Root", Value.dict
     [("keyids", Value.list [Value.str "aa"]),
      ("threshold", Value.int 1)])]),
   ("consistent_snapshot", Value.bool false),
   ("compression_algorithms", Value.list [Value.str "gz"])]

theorem sampleRootDoc_matches :
    ROOT_SCHEMA.matches (Value.dict sampleRootDoc) = true := by
  simp [ROOT_SCHEMA, ROLE_SCHEMA, KEY_SCHEMA, KEYVAL_SCHEMA, KEYID_SCHEMA,
    HASH_SCHEMA, sampleRootDoc, sampleGoodKey, sampleBadTypeKey,
    sampleMismatchKey, Schema.matches, Schema.fieldsOk, Schema.dictOk,
    Schema.listOk, Schema.anyOk, lookupVal, Regex.fullMatch, hexPattern,
    Regex.matchChars_plus_cls, inRanges_hex]
  decide

theorem bootstrap_tolerates_bad_entries_witness :
    create_keydb_from_root_metadata sampleCanon [] (Value.dict sampleRootDoc) =
      Except.ok (bootstrapFold sampleCanon []
        [("aa", sampleGoodKey), ("bb", sampleBadTypeKey),
         ("cc", sampleMismatchKey)]) ∧
    (∀ kid, (∀ p ∈ [("aa", sampleGoodKey), ("bb", sampleBadTypeKey),
          ("cc", sampleMismatchKey)], p.1 = kid →
        ¬ (supportedKeytype p.2 = true ∧ sampleCanon p.2 = kid)) →
      lookupVal [] kid = Option.none →
      lookupVal (bootstrapFold sampleCanon []
        [("aa", sampleGoodKey), ("bb", sampleBadTypeKey),
         ("cc", sampleMismatchKey)]) kid = Option.none) ∧
    (∀ kid key, (kid, key) ∈ [("aa", sampleGoodKey), ("bb", sampleBadTypeKey),
        ("cc", sampleMismatchKey)] →
      (∀ p ∈ [("aa", sampleGoodKey), ("bb", sampleBadTypeKey),
          ("cc", sampleMismatchKey)], p.1 = kid →
        p.2 = key ∧ supportedKeytype p.2 = true ∧ sampleCanon p.2 = kid) →
      lookupVal [] kid = Option.none →
      get_key (bootstrapFold sampleCanon []
        [("aa", sampleGoodKey), ("bb", sampleBadTypeKey),
         ("cc", sampleMismatchKey)]) (Value.str kid) = Except.ok key) :=
  bootstrap_tolerates_bad_entries sampleCanon [] sampleRootDoc
    [("aa", sampleGoodKey), ("bb", sampleBadTypeKey),
     ("cc", sampleMismatchKey)]
    sampleRootDoc_matches
    (by rfl)

/-- Claim C6: `create_keydb_from_root_metadata` is idempotent at the public
interface: on a well-formed root document whose `keys` map holds two
distinct valid (registrable) keys, one call starting from the empty
registry registers both, a second call with the same document returns
normally with the registry unchanged — in particular it does not raise
`KeyAlreadyExistsError` — and both keys stay retrievable by `get_key`. -/
theorem bootstrap_idempotent (canon : Value → String)
    (es : List (String × Value)) (kid1 kid2 : String) (key1 key2 : Value)
    (hmatch : ROOT_SCHEMA.matches (Value.dict es) = true)
    (hkeys : lookupVal es "keys" =
      some (Value.dict [(kid1, key1), (kid2, key2)]))
    (hne : kid1 ≠ kid2)
    (hs1 : supportedKeytype key1 = true) (hc1 : canon key1 = kid1)
    (hs2 : supportedKeytype key2 = true) (hc2 : canon key2 = kid2) :
    create_keydb_from_root_metadata canon [] (Value.dict es) =
      Except.ok [(kid1, key1), (kid2, key2)] ∧
    create_keydb_from_root_metadata canon [(kid1, key1), (kid2, key2)]
      (Value.dict es) = Except.ok [(kid1, key1), (kid2, key2)] ∧
    get_key [(kid1, key1), (kid2, key2)] (Value.str kid1) =
      Except.ok key1 ∧
    get_key [(kid1, key1), (kid2, key2)] (Value.str kid2) =
      Except.ok key2 := by
  have hdict := root_keys_dictOk es _ hmatch hkeys
  have hid1 : KEYID_SCHEMA.matches (Value.str kid1) = true :=
    (dictOk_mem _ _ _ _ _ hdict (List.mem_cons_self _ _)).1
  have hid2 : KEYID_SCHEMA.matches (Value.str kid2) = true :=
    (dictOk_mem _ _ _ _ _ hdict
      (List.mem_cons_of_mem _ (List.mem_cons_self _ _))).1
  have hfold1 : bootstrapFold canon [] [(kid1, key1), (kid2, key2)] =
      [(kid1, key1), (kid2, key2)] := by
    simp [bootstrapFold, bootstrapEntry, hs1, hc1, hs2, hc2, lookupVal, hne,
      Ne.symm hne]
  have hfold2 : bootstrapFold canon [(kid1, key1), (kid2, key2)]
      [(kid1, key1), (kid2, key2)] = [(kid1, key1), (kid2, key2)] := by
    simp [bootstrapFold, bootstrapEntry, hs1, hc1, hs2, hc2, lookupVal, hne,
      Ne.symm hne]
  refine ⟨?_, ?_, ?_, ?_⟩
  · rw [show (Except.ok [(kid1, key1), (kid2, key2)] :
        Except Err KeyDB) = Except.ok (bootstrapFold canon []
          [(kid1, key1), (kid2, key2)]) from by rw [hfold1]]
    simp [create_keydb_from_root_metadata, hmatch, hkeys, bootstrapFold]
  · rw [show (Except.ok [(kid1, key1), (kid2, key2)] :
        Except Err KeyDB) = Except.ok (bootstrapFold canon
          [(kid1, key1), (kid2, key2)] [(kid1, key1), (kid2, key2)]) from by
      rw [hfold2]]
    simp [create_keydb_from_root_metadata, hmatch, hkeys, bootstrapFold]
  · simp [get_key, hid1, lookupVal]
  · simp [get_key, hid2, lookupVal, hne]

/-- A second valid rsa key whose material canonicalizes to keyid `bb`. -/
def sampleGoodKey2 : Value :=
  Value.dict [("keytype", Value.str "rsa"), ("keyid", Value.str "bb"),
    ("keyval", Value.dict [("public", Value.str "pubkey2")])]

/-- A well-formed root document whose `keys` map holds exactly the two
distinct valid keys `aa` and `bb`. -/
def sampleRootDoc2 : List (String × Value) :=
  [("version", Value.int 8),
   ("expires", Value.str "1985-10-21T01:21:00Z"),
   ("keys", Value.dict [("aa", sampleGoodKey), ("bb", sampleGoodKey2)]),
   ("roles", Value.dict [("Root", Value.dict
     [("keyids", Value.list [Value.str "aa"]),
      ("threshold", Value.int 1)]),
     ("Targets", Value.dict
     [("keyids", Value.list [Value.str "bb", Value.str "aa"]),
      ("threshold", Value.int 1)])]),
   ("consistent_snapshot", Value.bool false),
   ("compression_algorithms", Value.list [Value.str "gz"])]

theorem sampleRootDoc2_matches :
    ROOT_SCHEMA.matches (Value.dict sampleRootDoc2) = true := by
  simp [ROOT_SCHEMA, ROLE_SCHEMA, KEY_SCHEMA, KEYVAL_SCHEMA, KEYID_SCHEMA,
    HASH_SCHEMA, sampleRootDoc2, sampleGoodKey, sampleGoodKey2,
    Schema.matches, Schema.fieldsOk, Schema.dictOk, Schema.listOk,
    Schema.anyOk, lookupVal, Regex.fullMatch, hexPattern,
    Regex.matchChars_plus_cls, inRanges_hex]
  decide

theorem sampleGoodKey_supported : supportedKeytype sampleGoodKey = true := by
  simp [supportedKeytype, sampleGoodKey, lookupVal, KEYTYPE_SCHEMA,
    Schema.matches, Schema.anyOk]

theorem sampleGoodKey2_supported : supportedKeytype sampleGoodKey2 = true := by
  simp [supportedKeytype, sampleGoodKey2, lookupVal, KEYTYPE_SCHEMA,
    Schema.matches, Schema.anyOk]

theorem bootstrap_idempotent_witness :
    create_keydb_from_root_metadata sampleCanon [] (Value.dict sampleRootDoc2) =
      Except.ok [("aa", sampleGoodKey), ("bb", sampleGoodKey2)] ∧
    create_keydb_from_root_metadata sampleCanon
      [("aa", sampleGoodKey), ("bb", sampleGoodKey2)]
      (Value.dict sampleRootDoc2) =
      Except.ok [("aa", sampleGoodKey), ("bb", sampleGoodKey2)] ∧
    get_key [("aa", sampleGoodKey), ("bb", sampleGoodKey2)]
      (Value.str "aa") = Except.ok sampleGoodKey ∧
    get_key [("aa", sampleGoodKey), ("bb", sampleGoodKey2)]
      (Value.str "bb") = Except.ok sampleGoodKey2 :=
  bootstrap_idempotent sampleCanon sampleRootDoc2 "aa" "bb" sampleGoodKey
    sampleGoodKey2 sampleRootDoc2_matches (by rfl) (by decide)
    sampleGoodKey_supported (by rfl) sampleGoodKey2_supported (by rfl)

/-! ### Open-record behaviour of Object schemas -/

theorem fieldsOk_append_extra (fs : List (String × Bool × Schema))
    (es extra : List (String × Value))
    (h : ∀ p ∈ extra, ∀ f ∈ fs, p.1 ≠ f.1) :
    Schema.fieldsOk fs (es ++ extra) = Schema.fieldsOk fs es := by
  induction fs with
  | nil => simp [Schema.fieldsOk]
  | cons f rest ih =>
      obtain ⟨name, opt, s⟩ := f
      have hnone : lookupVal extra name = Option.none :=
        lookupVal_none_of_no_key extra name
          (fun p hp => h p hp (name, opt, s) (List.mem_cons_self _ _))
      have hrest := ih (fun p hp f hf => h p hp f (List.mem_cons_of_mem _ hf))
      simp only [Schema.fieldsOk]
      rw [lookupVal_append, hrest]
      cases hl : lookupVal es name with
      | some v => rfl
      | none => rw [hnone]

theorem fieldsOk_prepend_extra (fs : List (String × Bool × Schema))
    (es extra : List (String × Value))
    (h : ∀ p ∈ extra, ∀ f ∈ fs, p.1 ≠ f.1) :
    Schema.fieldsOk fs (extra ++ es) = Schema.fieldsOk fs es := by
  induction fs with
  | nil => simp [Schema.fieldsOk]
  | cons f rest ih =>
      obtain ⟨name, opt, s⟩ := f
      have hnone : lookupVal extra name = Option.none :=
        lookupVal_none_of_no_key extra name
          (fun p hp => h p hp (name, opt, s) (List.mem_cons_self _ _))
      have hrest := ih (fun p hp f hf => h p hp f (List.mem_cons_of_mem _ hf))
      simp only [Schema.fieldsOk]
      rw [lookupVal_append, hnone, hrest]

/-- Claim C9: Object schemas are open records: a dictionary matching an
Object schema still matches after any unrecognized extra keys are added
(appended or prepended); for `KEYVAL_SCHEMA` the field `private` declared
`Optional` may be absent without causing a mismatch, and may be present as
a string, but when present it must match its `AnyString` sub-schema, so a
non-string `private` fails. -/
theorem object_schema_open_records :
    (∀ (fs : List (String × Bool × Schema)) (es extra : List (String × Value)),
      (∀ p ∈ extra, ∀ f ∈ fs, p.1 ≠ f.1) →
      Schema.matches (Schema.object fs) (Value.dict es) = true →
      Schema.matches (Schema.object fs) (Value.dict (es ++ extra)) = true ∧
      Schema.matches (Schema.object fs) (Value.dict (extra ++ es)) = true) ∧
    (∀ pub, KEYVAL_SCHEMA.matches
      (Value.dict [("public", Value.str pub)]) = true) ∧
    (∀ pub priv, KEYVAL_SCHEMA.matches
      (Value.dict [("public", Value.str pub),
        ("private", Value.str priv)]) = true) ∧
    (∀ pub n, KEYVAL_SCHEMA.matches
      (Value.dict [("public", Value.str pub),
        ("private", Value.int n)]) = false) := by
  refine ⟨?_, ?_, ?_, ?_⟩
  · intro fs es extra hdisj hm
    simp only [Schema.matches] at hm ⊢
    rw [fieldsOk_append_extra fs es extra hdisj,
      fieldsOk_prepend_extra fs es extra hdisj]
    exact ⟨hm, hm⟩
  · intro pub
    simp [KEYVAL_SCHEMA, Schema.matches, Schema.fieldsOk, lookupVal]
  · intro pub priv
    simp [KEYVAL_SCHEMA, Schema.matches, Schema.fieldsOk, lookupVal]
  · intro pub n
    simp [KEYVAL_SCHEMA, Schema.matches, Schema.fieldsOk, lookupVal]

/-! ### Construction of the Format Catalog module (src/formats.py)

src/formats.py is a sequence of top-level assignments, each evaluated in
order against the names bound so far; referencing a name that is not yet
bound raises a `NameError` and aborts the module's construction. The list
below records, in source order, every top-level schema assignment of
src/formats.py together with the module-level names its right-hand side
references. -/

def formatsModuleBindings : List (String × List String) :=
  [("HASH_SCHEMA", []),
   ("HASHDICT_SCHEMA", ["HASH_SCHEMA"]),
   ("HEX_SCHEMA", []),
   ("KEYID_SCHEMA", ["HASH_SCHEMA"]),
   ("KEYIDS_SCHEMA", ["KEYID_SCHEMA"]),
   ("SIG_METHOD_SCHEMA", []),
   ("HASHALGORITHMS_SCHEMA", []),
   ("ENCRYPTEDKEY_SCHEMA", []),
   ("RSAKEYBITS_SCHEMA", []),
   ("NUMBINS_SCHEMA", []),
   ("PYCRYPTOSIGNATURE_SCHEMA", []),
   ("PYCACRYPTOSIGNATURE_SCHEMA", []),
   ("PEMRSA_SCHEMA", []),
   ("PASSWORD_SCHEMA", []),
   ("PASSWORDS_SCHEMA", ["PASSWORD_SCHEMA"]),
   ("KEYVAL_SCHEMA", []),
   ("KEYTYPE_SCHEMA", []),
   ("KEY_SCHEMA", ["KEYVAL_SCHEMA"]),
   ("ANYKEY_SCHEMA", ["KEYTYPE_SCHEMA", "KEYID_SCHEMA", "KEYVAL_SCHEMA"]),
   ("ANYKEYLIST_SCHEMA", ["ANYKEY_SCHEMA"]),
   ("RSAKEY_SCHEMA", ["KEYID_SCHEMA", "KEYVAL_SCHEMA"]),
   ("ED25519PUBLIC_SCHEMA", []),
   ("ED25519SEED_SCHEMA", []),
   ("ED25519SIGNATURE_SCHEMA", []),
   ("REQUIRED_LIBRARIES_SCHEMA", []),
   ("ED25519KEY_SCHEMA", ["KEYID_SCHEMA", "KEYVAL_SCHEMA"]),
   ("TARGETFILES_SCHEMA", ["TARGETFILE_SCHEMA"]),
   ("SIGNATURE_SCHEMA", ["KEYID_SCHEMA", "SIG_METHOD_SCHEMA", "HEX_SCHEMA"]),
   ("SIGNATURES_SCHEMA", ["SIGNATURE_SCHEMA"]),
   ("SIGNABLE_SCHEMA", ["SIGNATURE_SCHEMA"]),
   ("KEYDICT_SCHEMA", ["KEYID_SCHEMA", "KEY_SCHEMA"]),
   ("KEYDB_SCHEMA", ["KEYID_SCHEMA"]),
   ("PATH_HASH_PREFIX_SCHEMA", ["HEX_SCHEMA"]),
   ("PATH_HASH_PREFIXES_SCHEMA", ["PATH_HASH_PREFIX_SCHEMA"])]

/-- Sequential evaluation of a module's top-level assignments: each binding
requires every name its right-hand side references to be bound already;
otherwise evaluation stops with that binding's name and the environment
bound so far (a `NameError`). -/
def evalTopLevel : List (String × List String) → List String →
    Except (String × List String) (List String)
  | [], env => Except.ok env
  | (n, refs) :: rest, env =>
      if refs.all (fun r => env.contains r) then evalTopLevel rest (env ++ [n])
      else Except.error (n, env)

/-- The module-level names of src/formats.py bound before the failing
assignment. -/
def formatsBoundBeforeFailure : List String :=
  ["HASH_SCHEMA", "HASHDICT_SCHEMA", "HEX_SCHEMA", "KEYID_SCHEMA",
   "KEYIDS_SCHEMA", "SIG_METHOD_SCHEMA", "HASHALGORITHMS_SCHEMA",
   "ENCRYPTEDKEY_SCHEMA", "RSAKEYBITS_SCHEMA", "NUMBINS_SCHEMA",
   "PYCRYPTOSIGNATURE_SCHEMA", "PYCACRYPTOSIGNATURE_SCHEMA",
   "PEMRSA_SCHEMA", "PASSWORD_SCHEMA", "PASSWORDS_SCHEMA",
   "KEYVAL_SCHEMA", "KEYTYPE_SCHEMA", "KEY_SCHEMA", "ANYKEY_SCHEMA",
   "ANYKEYLIST_SCHEMA", "RSAKEY_SCHEMA", "ED25519PUBLIC_SCHEMA",
   "ED25519SEED_SCHEMA", "ED25519SIGNATURE_SCHEMA",
   "REQUIRED_LIBRARIES_SCHEMA", "ED25519KEY_SCHEMA"]

/-- Claim C10: the Format Catalog module cannot be fully constructed as
written: evaluating src/formats.py's top-level assignments in order fails
with a `NameError` at `TARGETFILES_SCHEMA`, whose right-hand side
references `TARGETFILE_SCHEMA` — a name no assignment of the module ever
binds — so the later schemas `SIGNATURE_SCHEMA`, `SIGNABLE_SCHEMA`,
`KEYDICT_SCHEMA` and `KEYDB_SCHEMA` are never bound. -/
theorem formats_module_construction_fails :
    evalTopLevel formatsModuleBindings [] =
      Except.error ("TARGETFILES_SCHEMA", formatsBoundBeforeFailure) ∧
    "TARGETFILE_SCHEMA" ∉ formatsModuleBindings.map Prod.fst ∧
    "SIGNATURE_SCHEMA" ∉ formatsBoundBeforeFailure ∧
    "SIGNABLE_SCHEMA" ∉ formatsBoundBeforeFailure ∧
    "KEYDICT_SCHEMA" ∉ formatsBoundBeforeFailure ∧
    "KEYDB_SCHEMA" ∉ formatsBoundBeforeFailure :=
  ⟨by rfl, by decide, by decide, by decide, by decide, by decide⟩

end SslCrypto
